import Mathlib

set_option maxRecDepth 8000

/-!
Verification development for the notion-quick-notes backend
(`src-tauri/src/rate_limit.rs`, `src-tauri/src/notion.rs`, `src-tauri/src/error.rs`).

Shallow embedding conventions:
* `Instant` is modelled as a natural number of milliseconds; `Duration` likewise.
* the random jitter factor drawn by `thread_rng().gen_range(0.75..1.25)` is passed
  in explicitly as a rational parameter `j` (theorems hypothesise `3/4 ≤ j` where
  they depend on the draw being in range);
* the `RateLimitManager`'s map is observed through the slot of the one credential
  an operation uses: an `Option RateLimitState` (`none` = credential never seen);
* the network is a parameter of each operation: either a transport failure or a
  received HTTP response (status plus already-extracted rate-limit headers);
* mutations of the rate-limit manager performed by an operation are returned as an
  explicit list of `RateAction`s, in the order the code performs them.
-/

/-- Rate limit state for one API token (`RateLimitState` in rate_limit.rs). -/
structure RateLimitState where
  remaining : Option Nat
  reset_at : Option Nat
  limit : Option Nat
  last_updated : Nat
  recent_requests : List Nat
  consecutive_rate_limits : Nat
  is_rate_limited : Bool
deriving Repr, DecidableEq

/-- `RateLimitState::default()`; the `Instant::now()` of construction is a parameter. -/
def RateLimitState.mkDefault (now : Nat) : RateLimitState :=
  { remaining := none
    reset_at := none
    limit := none
    last_updated := now
    recent_requests := []
    consecutive_rate_limits := 0
    is_rate_limited := false }

/-- Base backoff of 1000 ms (`base_backoff_ms` in rate_limit.rs). -/
def base_backoff_ms : Nat := 1000

/-- Backoff cap of 300000 ms (`max_backoff_ms` in rate_limit.rs). -/
def max_backoff_ms : Nat := 300000

/-- The un-jittered backoff: `min(base * 2^min(n,10), max)`. -/
def raw_backoff_ms (n : Nat) : Nat :=
  min (base_backoff_ms * 2 ^ (min n 10)) max_backoff_ms

/-- The jittered backoff `(backoff_ms as f64 * jitter_factor) as u64`; the cast
truncates the nonnegative product, i.e. takes the floor. -/
def jittered_backoff_ms (n : Nat) (j : ℚ) : Nat :=
  Nat.floor ((raw_backoff_ms n : ℚ) * j)

/-- `RateLimitState::backoff_allows_request`. `Instant::now()` and the jitter draw
are parameters; `duration_since` saturates at zero like Nat subtraction. -/
def RateLimitState.backoff_allows_request (st : RateLimitState) (now : Nat) (j : ℚ) : Bool :=
  if st.consecutive_rate_limits = 0 then
    true
  else
    decide (jittered_backoff_ms st.consecutive_rate_limits j ≤ now - st.last_updated)

/-- `RateLimitState::should_allow_request`. -/
def RateLimitState.should_allow_request (st : RateLimitState) (now : Nat) (j : ℚ) : Bool :=
  if st.is_rate_limited = false then
    true
  else if (match st.reset_at with
           | some reset_time => decide (reset_time < now)
           | none => false) then
    true
  else
    match st.remaining with
    | some remaining => decide (0 < remaining)
    | none => st.backoff_allows_request now j

/-- `RateLimitState::record_success`: clears the limited flag and counter, appends
`now` to `recent_requests`, evicting the oldest entry beyond 20. -/
def RateLimitState.record_success (st : RateLimitState) (now : Nat) : RateLimitState :=
  let pushed := st.recent_requests ++ [now]
  { st with
    consecutive_rate_limits := 0
    is_rate_limited := false
    recent_requests := if 20 < pushed.length then pushed.drop 1 else pushed }

/-- `RateLimitState::record_rate_limit`: increments the counter, sets the limited
flag, stamps `last_updated`, overwrites `remaining`/`limit` unconditionally, and
sets `reset_at := now + reset_seconds` only when `reset_seconds` is given. -/
def RateLimitState.record_rate_limit (st : RateLimitState) (now : Nat)
    (reset_seconds : Option Nat) (remaining : Option Nat) (limit : Option Nat) :
    RateLimitState :=
  { st with
    consecutive_rate_limits := st.consecutive_rate_limits + 1
    is_rate_limited := true
    last_updated := now
    remaining := remaining
    limit := limit
    reset_at :=
      match reset_seconds with
      | some seconds => some (now + seconds * 1000)
      | none => st.reset_at }

/-- `RateLimitState::get_recommended_delay` (in milliseconds). -/
def RateLimitState.get_recommended_delay (st : RateLimitState) (now : Nat) (j : ℚ) : Nat :=
  if st.is_rate_limited = false then
    0
  else
    match st.reset_at with
    | some reset_time =>
      if now < reset_time then reset_time - now
      else jittered_backoff_ms st.consecutive_rate_limits j
    | none => jittered_backoff_ms st.consecutive_rate_limits j

/-- `RateLimitManager::should_allow_request` for one credential slot
(`None` means the credential has no state yet, which allows the request). -/
def manager_should_allow (ost : Option RateLimitState) (now : Nat) (j : ℚ) : Bool :=
  match ost with
  | some st => st.should_allow_request now j
  | none => true

/-- `RateLimitManager::get_recommended_delay` for one credential slot. -/
def manager_recommended_delay (ost : Option RateLimitState) (now : Nat) (j : ℚ) : Nat :=
  match ost with
  | some st => st.get_recommended_delay now j
  | none => 0

/-- A mutation of the rate-limit manager performed by an operation, in the order
the code performs them (`record_success` / `record_rate_limit` calls). -/
inductive RateAction where
  | recordSuccess
  | recordRateLimit (reset : Option Nat) (remaining : Option Nat) (limit : Option Nat)
deriving Repr, DecidableEq

/-- Applying one recorded manager mutation to a credential slot; mirrors
`states.entry(token).or_default()` followed by the state-level mutation. -/
def apply_action (now : Nat) (ost : Option RateLimitState) : RateAction → Option RateLimitState
  | .recordSuccess => some ((ost.getD (RateLimitState.mkDefault now)).record_success now)
  | .recordRateLimit reset remaining limit =>
    some ((ost.getD (RateLimitState.mkDefault now)).record_rate_limit now reset remaining limit)

/-- Applying a list of recorded manager mutations in order. -/
def apply_actions (now : Nat) (ost : Option RateLimitState) (as : List RateAction) :
    Option RateLimitState :=
  as.foldl (apply_action now) ost

/-- The `AppError` taxonomy of error.rs (the variants the API client produces). -/
inductive AppError where
  | configError (msg : String)
  | notionApiError (message : String) (status_code : Option Nat) (error_code : Option String)
  | rateLimitError (message : String) (retry_after : Option Nat)
      (limit : Option Nat) (remaining : Option Nat)
  | networkError (message : String) (is_offline : Bool)
  | offlineError (msg : String)
  | validationError (msg : String)
deriving Repr, DecidableEq

/-- The rate-limit headers of a received response, after
`extract_rate_limit_headers`: `reset` is already converted to seconds-from-now
(clamped at 0), `remaining` and `limit` are parsed counts. -/
structure RateHeaders where
  reset : Option Nat
  remaining : Option Nat
  limit : Option Nat
deriving Repr, DecidableEq

/-- Outcome of `client.send().await`: either the transport failed (no HTTP
response was received) or a response with a status and rate-limit headers arrived. -/
inductive HttpOutcome where
  | transportError (msg : String)
  | response (status : Nat) (headers : RateHeaders)
deriving Repr, DecidableEq

/-- `StatusCode::is_success()`: the 2xx range. -/
def is_success (status : Nat) : Bool :=
  decide (200 ≤ status ∧ status < 300)

/-- A page summary (`NotionPage` in notion.rs). -/
structure NotionPage where
  id : String
  title : String
  icon : Option String
  url : String
deriving Repr, DecidableEq

/-- The single-slot pages cache: `Option` of (data, expires_at). -/
def PagesCache := Option (List NotionPage × Nat)

/-- Observable trace of one operation: its returned value or error, the
rate-limit manager mutations it performed, and whether it attempted the network
(i.e. reached `send()`). -/
structure OpTrace (α : Type) where
  result : Except AppError α
  actions : List RateAction
  network_attempted : Bool
deriving Repr

/-- `NotionApiClient::check_rate_limit`: the admission check. The two jitter
draws (inside `should_allow_request` and `get_recommended_delay`) are the
parameters `j1` and `j2`. -/
def check_rate_limit (ost : Option RateLimitState) (now : Nat) (j1 j2 : ℚ) :
    Except AppError Unit :=
  if manager_should_allow ost now j1 = false then
    let delay := manager_recommended_delay ost now j2
    if delay ≠ 0 then
      let seconds := delay / 1000
      match ost with
      | some state =>
        .error (.rateLimitError
          ("Rate limit in effect, retry after " ++ toString seconds ++ " seconds")
          (some seconds) state.limit state.remaining)
      | none =>
        .error (.rateLimitError
          ("Rate limit in effect, retry after " ++ toString seconds ++ " seconds")
          (some seconds) none none)
    else
      .ok ()
  else
    .ok ()

/-- `NotionApiClient::handle_rate_limit` (HTTP 429): the error returned and the
`record_rate_limit` mutation performed. -/
def handle_rate_limit (h : RateHeaders) : AppError × RateAction :=
  (.rateLimitError "You've reached Notion's API rate limit." h.reset h.limit h.remaining,
   .recordRateLimit h.reset h.remaining h.limit)

/-- `NotionApiClient::verify_token`. `StatusCode` display is abstracted to the
numeric status. -/
def verify_token (ost : Option RateLimitState) (now : Nat) (j1 j2 : ℚ)
    (net : HttpOutcome) : OpTrace Bool :=
  match check_rate_limit ost now j1 j2 with
  | .error e => { result := .error e, actions := [], network_attempted := false }
  | .ok _ =>
    match net with
    | .transportError msg =>
      { result := .error (.networkError ("API request failed: " ++ msg) false)
        actions := [], network_attempted := true }
    | .response status h =>
      if status = 429 then
        { result := .error (handle_rate_limit h).1
          actions := [(handle_rate_limit h).2], network_attempted := true }
      else if is_success status = false then
        { result := .error (.notionApiError
            ("API token validation failed with status: " ++ toString status)
            (some status) none)
          actions := [], network_attempted := true }
      else
        { result := .ok (is_success status)
          actions := [.recordSuccess], network_attempted := true }

/-- Outcome of reading and decoding the body of a 2xx search response. The
per-entry title-extraction pipeline is abstracted: `pages` carries the list of
summaries the `filter_map` produced. -/
inductive SearchBody where
  | parseFail (msg : String)
  | missingResults
  | pages (ps : List NotionPage)
deriving Repr, DecidableEq

/-- The network-fetch half of `NotionApiClient::search_pages` (everything after
the cache lookup). Returns the trace and the cache slot after the call. -/
def search_pages_fetch (cache : PagesCache) (ost : Option RateLimitState) (now : Nat)
    (j1 j2 : ℚ) (net : HttpOutcome) (body : SearchBody) :
    OpTrace (List NotionPage) × PagesCache :=
  match check_rate_limit ost now j1 j2 with
  | .error e => ({ result := .error e, actions := [], network_attempted := false }, cache)
  | .ok _ =>
    match net with
    | .transportError msg =>
      ({ result := .error (.networkError ("API request failed: " ++ msg) false)
         actions := [], network_attempted := true }, cache)
    | .response status h =>
      if status = 429 then
        ({ result := .error (handle_rate_limit h).1
           actions := [(handle_rate_limit h).2], network_attempted := true }, cache)
      else if is_success status = false then
        ({ result := .error (.notionApiError ("API error: " ++ toString status)
             (some status) none)
           actions := [], network_attempted := true }, cache)
      else
        match body with
        | .parseFail msg =>
          ({ result := .error (.notionApiError ("Failed to parse response: " ++ msg) none none)
             actions := [.recordSuccess], network_attempted := true }, cache)
        | .missingResults =>
          ({ result := .error (.notionApiError
               "Invalid response format: missing results array" none none)
             actions := [.recordSuccess], network_attempted := true }, cache)
        | .pages ps =>
          ({ result := .ok ps, actions := [.recordSuccess], network_attempted := true },
           some (ps, now + 300000))

/-- `NotionApiClient::search_pages`: cache lookup first, then the fetch. -/
def search_pages (cache : PagesCache) (ost : Option RateLimitState) (now : Nat)
    (j1 j2 : ℚ) (net : HttpOutcome) (body : SearchBody) :
    OpTrace (List NotionPage) × PagesCache :=
  match cache with
  | some entry =>
    if now < entry.2 then
      ({ result := .ok entry.1, actions := [], network_attempted := false }, cache)
    else
      search_pages_fetch cache ost now j1 j2 net body
  | none => search_pages_fetch cache ost now j1 j2 net body

/-- The local wall-clock fields read via chrono (`Local::now()`): day, month,
year, hour, minute, second. -/
structure Clock where
  day : Nat
  month : Nat
  year : Nat
  hour : Nat
  minute : Nat
  second : Nat
deriving Repr, DecidableEq

/-- Rust `{:02}` formatting of a nonnegative value: zero-padded to width 2. -/
def pad2 (n : Nat) : String :=
  if n < 10 then "0" ++ toString n else toString n

/-- The month-abbreviation `match` in `append_note_to_page`. -/
def month_abbr (m : Nat) : String :=
  match m with
  | 1 => "Jan" | 2 => "Feb" | 3 => "Mar" | 4 => "Apr" | 5 => "May" | 6 => "Jun"
  | 7 => "Jul" | 8 => "Aug" | 9 => "Sep" | 10 => "Oct" | 11 => "Nov" | 12 => "Dec"
  | _ => "Unknown"

/-- The timestamp `format!("[{:02} {} {:02}, {:02}:{:02}:{:02}]", day, mon,
year % 100, hour, minute, second)`. -/
def timestamp_of (c : Clock) : String :=
  "[" ++ pad2 c.day ++ " " ++ month_abbr c.month ++ " " ++ pad2 (c.year % 100) ++ ", "
    ++ pad2 c.hour ++ ":" ++ pad2 c.minute ++ ":" ++ pad2 c.second ++ "]"

/-- The rich-text content `format!("{} {}", timestamp, note_text)`. -/
def note_content (c : Clock) (note_text : String) : String :=
  timestamp_of c ++ " " ++ note_text

/-- One rich-text element of the append request body. -/
structure RichText where
  ty : String
  content : String
  bold : Bool
  color : String
deriving Repr, DecidableEq

/-- One block of the append request body. -/
structure Block where
  object : String
  ty : String
  rich_text : List RichText
deriving Repr, DecidableEq

/-- The `children` payload PATCHed by `append_note_to_page`. -/
structure AppendBody where
  children : List Block
deriving Repr, DecidableEq

/-- The request body built by `append_note_to_page`: a single bold paragraph
block whose text is the timestamp followed by the note text. -/
def build_append_body (c : Clock) (note_text : String) : AppendBody :=
  { children :=
      [{ object := "block"
         ty := "paragraph"
         rich_text :=
           [{ ty := "text"
              content := note_content c note_text
              bold := true
              color := "default" }] }] }

/-- Outcome of decoding the body of a non-2xx append response. -/
inductive ErrorBody where
  | parseFail (msg : String)
  | parsed (code : Option String) (message : Option String)
deriving Repr, DecidableEq

/-- `NotionApiClient::append_note_to_page`. Besides the trace, returns the
request body that was sent (`none` when admission denied the attempt). -/
def append_note_to_page (ost : Option RateLimitState) (now : Nat) (j1 j2 : ℚ)
    (c : Clock) (page_id note_text : String) (net : HttpOutcome) (ebody : ErrorBody) :
    OpTrace Unit × Option AppendBody :=
  match check_rate_limit ost now j1 j2 with
  | .error e =>
    ({ result := .error e, actions := [], network_attempted := false }, none)
  | .ok _ =>
    let body := build_append_body c note_text
    match net with
    | .transportError msg =>
      ({ result := .error (.networkError ("API request failed: " ++ msg) false)
         actions := [], network_attempted := true }, some body)
    | .response status h =>
      if status = 429 then
        ({ result := .error (handle_rate_limit h).1
           actions := [(handle_rate_limit h).2], network_attempted := true }, some body)
      else if is_success status = false then
        match ebody with
        | .parseFail msg =>
          ({ result := .error (.notionApiError ("Failed to parse error response: " ++ msg)
               (some status) none)
             actions := [], network_attempted := true }, some body)
        | .parsed code message =>
          ({ result := .error (.notionApiError (message.getD "Unknown error")
               (some status) code)
             actions := [], network_attempted := true }, some body)
      else
        ({ result := .ok (), actions := [.recordSuccess], network_attempted := true },
         some body)

/-- Rust `char::is_whitespace` restricted to the ASCII whitespace characters
relevant to note text and ids. -/
def rust_whitespace (ch : Char) : Bool :=
  ch = ' ' || ch = '\t' || ch = '\n' || ch = '\r' || ch = '\x0b' || ch = '\x0c'

/-- `s.trim().is_empty()`: the string consists only of whitespace. -/
def trim_is_empty (s : String) : Bool :=
  s.toList.all rust_whitespace

/-- The shared configuration store fields the operations read (`config.rs`). -/
structure Config where
  notion_api_token : String
  selected_page_id : String
  selected_page_title : String
deriving Repr, DecidableEq

/-- The `append_note` tauri command: validation, config reads, then
`append_note_to_page` on the stored page id. -/
def append_note (note_text : String) (cfg : Config) (ost : Option RateLimitState)
    (now : Nat) (j1 j2 : ℚ) (c : Clock) (net : HttpOutcome) (ebody : ErrorBody) :
    OpTrace Unit × Option AppendBody :=
  if trim_is_empty note_text then
    ({ result := .error (.validationError "Cannot send an empty note")
       actions := [], network_attempted := false }, none)
  else if cfg.notion_api_token = "" then
    ({ result := .error (.notionApiError "Notion API token not set" none none)
       actions := [], network_attempted := false }, none)
  else if cfg.selected_page_id = "" then
    ({ result := .error (.notionApiError "No Notion page selected" none none)
       actions := [], network_attempted := false }, none)
  else
    append_note_to_page ost now j1 j2 c cfg.selected_page_id note_text net ebody

/-- The fallback page `get_page_info` substitutes when the listing fails or has
no entry for the requested id. -/
def fallback_page (page_id : String) : NotionPage :=
  { id := page_id, title := "Notion Page", icon := none, url := "" }

/-- The `get_page_info` tauri command: validation, config read, admission check,
then a lookup through `search_pages` with a fallback page on any miss. -/
def get_page_info (page_id : String) (cfg : Config) (cache : PagesCache)
    (ost : Option RateLimitState) (now : Nat) (j1 j2 : ℚ) (net : HttpOutcome)
    (body : SearchBody) : OpTrace NotionPage × PagesCache :=
  if trim_is_empty page_id then
    ({ result := .error (.validationError "Page ID cannot be empty")
       actions := [], network_attempted := false }, cache)
  else if cfg.notion_api_token = "" then
    ({ result := .error (.notionApiError "API token is not set" none none)
       actions := [], network_attempted := false }, cache)
  else
    match check_rate_limit ost now j1 j2 with
    | .error e =>
      ({ result := .error e, actions := [], network_attempted := false }, cache)
    | .ok _ =>
      let fetched := search_pages cache ost now j1 j2 net body
      match fetched.1.result with
      | .ok pages =>
        match pages.find? (fun p => p.id == page_id) with
        | some page =>
          ({ result := .ok page, actions := fetched.1.actions
             network_attempted := fetched.1.network_attempted }, fetched.2)
        | none =>
          ({ result := .ok (fallback_page page_id), actions := fetched.1.actions
             network_attempted := fetched.1.network_attempted }, fetched.2)
      | .error _ =>
        ({ result := .ok (fallback_page page_id), actions := fetched.1.actions
           network_attempted := fetched.1.network_attempted }, fetched.2)

/-- The `set_notion_api_token` tauri command. The pieces outside the core are
parameters: `client_ok` is whether `NotionApiClient::new` succeeded, `verify` is
the result of `verify_token`, `save_ok` is whether `config.save()` succeeded.
Returns the result and the cache slot after the call. -/
def set_notion_api_token (api_token : String) (cache : PagesCache)
    (client_ok : Bool) (verify : Except AppError Bool) (save_ok : Bool) :
    Except AppError Bool × PagesCache :=
  if trim_is_empty api_token then
    (.error (.validationError "API token cannot be empty"), cache)
  else
    let cleared : PagesCache := none
    if client_ok = false then
      (.error (.notionApiError "Failed to create API client" none none), cleared)
    else
      match verify with
      | .ok valid =>
        if valid then
          if save_ok then (.ok true, cleared)
          else (.error (.configError "Failed to save config"), cleared)
        else
          (.error (.notionApiError "Invalid API token" none none), cleared)
      | .error e => (.error e, cleared)

theorem base_le_raw_backoff (n : Nat) : 1000 ≤ raw_backoff_ms n := by
  unfold raw_backoff_ms base_backoff_ms max_backoff_ms
  refine le_min ?_ (by norm_num)
  calc 1000 = 1000 * 1 := by ring
    _ ≤ 1000 * 2 ^ (min n 10) := Nat.mul_le_mul_left 1000 (Nat.one_le_pow _ 2 (by norm_num))

theorem jitter_floor_ge (n : Nat) (j : ℚ) (hj : 3 / 4 ≤ j) :
    750 ≤ jittered_backoff_ms n j := by
  unfold jittered_backoff_ms
  apply Nat.le_floor
  have h1 : (1000 : ℚ) ≤ (raw_backoff_ms n : ℚ) := by exact_mod_cast base_le_raw_backoff n
  calc (750 : ℚ) = 1000 * (3 / 4) := by norm_num
    _ ≤ (raw_backoff_ms n : ℚ) * j := by
        apply mul_le_mul h1 hj (by norm_num) (by positivity)

theorem recommended_delay_pos (st : RateLimitState) (now : Nat) (j : ℚ)
    (hlim : st.is_rate_limited = true) (hj : 3 / 4 ≤ j) :
    0 < st.get_recommended_delay now j := by
  have h750 : 0 < jittered_backoff_ms st.consecutive_rate_limits j :=
    lt_of_lt_of_le (by norm_num) (jitter_floor_ge _ j hj)
  unfold RateLimitState.get_recommended_delay
  rw [hlim]
  simp only [Bool.true_eq_false, if_false]
  cases hr : st.reset_at with
  | none => exact h750
  | some reset_time =>
    show 0 < if now < reset_time then reset_time - now
             else jittered_backoff_ms st.consecutive_rate_limits j
    by_cases hlt : now < reset_time
    · rw [if_pos hlt]
      exact Nat.sub_pos_of_lt hlt
    · rw [if_neg hlt]
      exact h750

theorem should_allow_false_limited (st : RateLimitState) (now : Nat) (j : ℚ)
    (h : st.should_allow_request now j = false) : st.is_rate_limited = true := by
  cases hb : st.is_rate_limited with
  | true => rfl
  | false =>
    unfold RateLimitState.should_allow_request at h
    rw [hb] at h
    simp at h

/-- C5: `record_rate_limit(reset_seconds, remaining, limit)` increments
`consecutive_rate_limits`, sets `is_rate_limited = true`, refreshes
`last_updated`, and unconditionally overwrites `remaining` and `limit` with the
given values (to `none` when the arguments are absent); `reset_at` is set to
`now + reset_seconds` only when `reset_seconds` is given and otherwise keeps its
prior value; `recent_requests` is untouched. -/
theorem record_rate_limit_spec (st : RateLimitState) (now : Nat)
    (reset_seconds remaining limit : Option Nat) :
    (st.record_rate_limit now reset_seconds remaining limit).consecutive_rate_limits
        = st.consecutive_rate_limits + 1 ∧
    (st.record_rate_limit now reset_seconds remaining limit).is_rate_limited = true ∧
    (st.record_rate_limit now reset_seconds remaining limit).last_updated = now ∧
    (st.record_rate_limit now reset_seconds remaining limit).remaining = remaining ∧
    (st.record_rate_limit now reset_seconds remaining limit).limit = limit ∧
    (st.record_rate_limit now reset_seconds remaining limit).recent_requests
        = st.recent_requests ∧
    (st.record_rate_limit now reset_seconds remaining limit).reset_at
        = (match reset_seconds with
           | some seconds => some (now + seconds * 1000)
           | none => st.reset_at) :=
  ⟨rfl, rfl, rfl, rfl, rfl, rfl, rfl⟩

/-- C4: when admission passes, `append_note_to_page` sends exactly one
bold-annotated paragraph block whose text is the timestamp concatenated with the
note text; at the clock value 05 March 2024 14:03:09 with text "Buy milk" the
request text begins with (here: equals) the literal "[05 Mar 24, 14:03:09] Buy milk". -/
theorem append_body_single_bold_block (c : Clock) (note_text page_id : String)
    (ost : Option RateLimitState) (now : Nat) (j1 j2 : ℚ) (net : HttpOutcome)
    (ebody : ErrorBody) (hadm : check_rate_limit ost now j1 j2 = .ok ()) :
    (append_note_to_page ost now j1 j2 c page_id note_text net ebody).2
        = some (build_append_body c note_text) ∧
    build_append_body c note_text =
      { children :=
          [{ object := "block"
             ty := "paragraph"
             rich_text :=
               [{ ty := "text"
                  content := timestamp_of c ++ " " ++ note_text
                  bold := true
                  color := "default" }] }] } ∧
    note_content { day := 5, month := 3, year := 2024, hour := 14, minute := 3, second := 9 }
        "Buy milk" = "[05 Mar 24, 14:03:09] Buy milk" ∧
    (∀ text : String,
      note_content { day := 5, month := 3, year := 2024, hour := 14, minute := 3, second := 9 }
        text = "[05 Mar 24, 14:03:09] " ++ text) := by
  have hts : timestamp_of
      { day := 5, month := 3, year := 2024, hour := 14, minute := 3, second := 9 } ++ " "
      = "[05 Mar 24, 14:03:09] " := by decide
  refine ⟨?_, rfl, by decide, ?_⟩
  case refine_2 =>
    intro text
    unfold note_content
    rw [hts]
  unfold append_note_to_page
  rw [hadm]
  cases net with
  | transportError msg => rfl
  | response status h =>
    dsimp only
    by_cases h429 : status = 429
    · simp [h429]
    · by_cases hs : is_success status = false
      · cases ebody <;> simp [h429, hs]
      · simp [h429, hs]

/-- C4 witness: the theorem applied at a concrete admission-passing input. -/
theorem append_body_single_bold_block_witness :
    (append_note_to_page none 0 1 1
        { day := 5, month := 3, year := 2024, hour := 14, minute := 3, second := 9 }
        "pid" "Buy milk" (.response 200 ⟨none, none, none⟩) (.parsed none none)).2
      = some (build_append_body
          { day := 5, month := 3, year := 2024, hour := 14, minute := 3, second := 9 }
          "Buy milk") ∧
    note_content { day := 5, month := 3, year := 2024, hour := 14, minute := 3, second := 9 }
        "Buy milk" = "[05 Mar 24, 14:03:09] Buy milk" := by
  have h := append_body_single_bold_block
    { day := 5, month := 3, year := 2024, hour := 14, minute := 3, second := 9 }
    "Buy milk" "pid" none 0 1 1 (.response 200 ⟨none, none, none⟩) (.parsed none none) rfl
  exact ⟨h.1, h.2.2.1⟩

/-- C10: `verify_token` never returns `Ok(false)`: every non-success status is
converted into an error before the final return, so a success value is always
`true` (hence the `Ok(false)` handling branch of `set_notion_api_token` is
unreachable). -/
theorem verify_token_never_ok_false (ost : Option RateLimitState) (now : Nat)
    (j1 j2 : ℚ) (net : HttpOutcome) (b : Bool)
    (h : (verify_token ost now j1 j2 net).result = .ok b) : b = true := by
  unfold verify_token at h
  cases hc : check_rate_limit ost now j1 j2 with
  | error e => rw [hc] at h; simp at h
  | ok u =>
    rw [hc] at h
    cases net with
    | transportError msg => simp at h
    | response status hh =>
      dsimp only at h
      by_cases h429 : status = 429
      · simp [h429] at h
      · by_cases hs : is_success status = false
        · simp [h429, hs] at h
        · simp only [Bool.not_eq_false] at hs
          simp [h429, hs] at h
          exact h

/-- C10 witness: a concrete received 200 response returns `Ok(true)`. -/
theorem verify_token_never_ok_false_witness :
    (verify_token none 0 1 1 (.response 200 ⟨none, none, none⟩)).result = .ok true ∧
    true = true :=
  ⟨rfl, verify_token_never_ok_false none 0 1 1 (.response 200 ⟨none, none, none⟩) true rfl⟩

/-- C2: whenever `should_allow_request` returns false for the credential's
state, `check_rate_limit` fails with a `RateLimited` error carrying the
recommended delay (in seconds) and the last-known limit/remaining; the
recommended delay is strictly positive, so the denied branch with zero delay is
unreachable, and none of the three operations attempts the network. -/
theorem check_rate_limit_denies (st : RateLimitState) (now : Nat) (j1 j2 : ℚ)
    (hj : 3 / 4 ≤ j2)
    (hdeny : st.should_allow_request now j1 = false) :
    0 < st.get_recommended_delay now j2 ∧
    check_rate_limit (some st) now j1 j2 =
      .error (.rateLimitError
        ("Rate limit in effect, retry after "
          ++ toString (st.get_recommended_delay now j2 / 1000) ++ " seconds")
        (some (st.get_recommended_delay now j2 / 1000)) st.limit st.remaining) ∧
    (∀ net, (verify_token (some st) now j1 j2 net).network_attempted = false) ∧
    (∀ cache net body,
      (search_pages cache (some st) now j1 j2 net body).1.network_attempted = false) ∧
    (∀ c pid text net ebody,
      (append_note_to_page (some st) now j1 j2 c pid text net ebody).1.network_attempted
        = false) := by
  have hlim := should_allow_false_limited st now j1 hdeny
  have hpos := recommended_delay_pos st now j2 hlim hj
  have hcheck : check_rate_limit (some st) now j1 j2 =
      .error (.rateLimitError
        ("Rate limit in effect, retry after "
          ++ toString (st.get_recommended_delay now j2 / 1000) ++ " seconds")
        (some (st.get_recommended_delay now j2 / 1000)) st.limit st.remaining) := by
    have hne : st.get_recommended_delay now j2 ≠ 0 := Nat.pos_iff_ne_zero.mp hpos
    simp only [check_rate_limit, manager_should_allow, manager_recommended_delay, hdeny]
    rw [if_pos trivial, if_pos hne]
  refine ⟨hpos, hcheck, ?_, ?_, ?_⟩
  · intro net
    unfold verify_token
    rw [hcheck]
  · intro cache net body
    cases cache with
    | none =>
      unfold search_pages search_pages_fetch
      rw [hcheck]
    | some entry =>
      unfold search_pages
      dsimp only
      by_cases hhit : now < entry.2
      · rw [if_pos hhit]
      · rw [if_neg hhit]
        unfold search_pages_fetch
        rw [hcheck]
  · intro c pid text net ebody
    unfold append_note_to_page
    rw [hcheck]

/-- C2 witness: a concrete limited state with `remaining = 0` and a future
`reset_at` is denied, the pre-flight check fails with the RateLimited error, and
no operation attempts the network. -/
theorem check_rate_limit_denies_witness :
    0 < RateLimitState.get_recommended_delay ⟨some 0, some 1000, some 3, 0, [], 1, true⟩ 0 1 ∧
    check_rate_limit (some ⟨some 0, some 1000, some 3, 0, [], 1, true⟩) 0 1 1 =
      .error (.rateLimitError "Rate limit in effect, retry after 1 seconds"
        (some 1) (some 3) (some 0)) ∧
    (verify_token (some ⟨some 0, some 1000, some 3, 0, [], 1, true⟩) 0 1 1
        (.response 200 ⟨none, none, none⟩)).network_attempted = false ∧
    (search_pages none (some ⟨some 0, some 1000, some 3, 0, [], 1, true⟩) 0 1 1
        (.response 200 ⟨none, none, none⟩) (.pages [])).1.network_attempted = false ∧
    (append_note_to_page (some ⟨some 0, some 1000, some 3, 0, [], 1, true⟩) 0 1 1
        { day := 1, month := 1, year := 2024, hour := 0, minute := 0, second := 0 }
        "pid" "note" (.response 200 ⟨none, none, none⟩)
        (.parsed none none)).1.network_attempted = false := by
  have h := check_rate_limit_denies ⟨some 0, some 1000, some 3, 0, [], 1, true⟩ 0 1 1
    (by norm_num) rfl
  exact ⟨h.1, h.2.1, h.2.2.1 _, h.2.2.2.1 none _ _, h.2.2.2.2 _ "pid" "note" _ _⟩

/-- The manager mutations a received response should trigger under the amended
reading of the spec: 429 records the rate limit, 2xx records a success, and any
other status records nothing. -/
def expected_actions (status : Nat) (h : RateHeaders) : List RateAction :=
  if status = 429 then [.recordRateLimit h.reset h.remaining h.limit]
  else if is_success status = true then [.recordSuccess]
  else []

/-- C1 counterexample: a received 404 response to `verify_token` (admission
passed) performs no manager mutation at all; in particular `record_success` is
not invoked, contradicting the claim that every non-429 status records a
success. -/
theorem non2xx_records_nothing_counterexample :
    (verify_token none 0 1 1 (.response 404 ⟨none, none, none⟩)).actions = [] ∧
    RateAction.recordSuccess ∉
      (verify_token none 0 1 1 (.response 404 ⟨none, none, none⟩)).actions := by
  have h : (verify_token none 0 1 1 (.response 404 ⟨none, none, none⟩)).actions = [] := rfl
  refine ⟨h, ?_⟩
  rw [h]
  exact List.not_mem_nil _

/-- C1 (amended): for every response actually received (admission passed, cache
missed), each operation performs exactly these manager mutations: a 429 records
the rate limit from the response headers; a 2xx records a success; any other
status — e.g. 404 or 500 — records nothing, leaving `is_rate_limited` and
`consecutive_rate_limits` untouched rather than clearing them. -/
theorem response_feeds_manager (ost : Option RateLimitState) (now : Nat) (j1 j2 : ℚ)
    (status : Nat) (h : RateHeaders) (sbody : SearchBody) (ebody : ErrorBody)
    (c : Clock) (pid text : String)
    (hadm : check_rate_limit ost now j1 j2 = .ok ()) :
    (verify_token ost now j1 j2 (.response status h)).actions
        = expected_actions status h ∧
    (search_pages none ost now j1 j2 (.response status h) sbody).1.actions
        = expected_actions status h ∧
    (append_note_to_page ost now j1 j2 c pid text (.response status h) ebody).1.actions
        = expected_actions status h := by
  refine ⟨?_, ?_, ?_⟩
  · unfold verify_token
    rw [hadm]
    dsimp only
    by_cases h429 : status = 429
    · simp [h429, expected_actions, handle_rate_limit]
    · by_cases hs : is_success status = false
      · simp [h429, hs, expected_actions]
      · simp only [Bool.not_eq_false] at hs
        simp [h429, hs, expected_actions]
  · unfold search_pages search_pages_fetch
    rw [hadm]
    dsimp only
    by_cases h429 : status = 429
    · simp [h429, expected_actions, handle_rate_limit]
    · by_cases hs : is_success status = false
      · simp [h429, hs, expected_actions]
      · simp only [Bool.not_eq_false] at hs
        cases sbody <;> simp [h429, hs, expected_actions]
  · unfold append_note_to_page
    rw [hadm]
    dsimp only
    by_cases h429 : status = 429
    · simp [h429, expected_actions, handle_rate_limit]
    · by_cases hs : is_success status = false
      · cases ebody <;> simp [h429, hs, expected_actions]
      · simp only [Bool.not_eq_false] at hs
        simp [h429, hs, expected_actions]

/-- C1 witness: concrete received responses across the three statuses classes:
429 records the rate limit, 200 records a success, 404 records nothing. -/
theorem response_feeds_manager_witness :
    (verify_token none 0 1 1 (.response 429 ⟨some 7, some 0, some 3⟩)).actions
        = [.recordRateLimit (some 7) (some 0) (some 3)] ∧
    (search_pages none none 0 1 1 (.response 200 ⟨none, none, none⟩)
        (.pages [])).1.actions = [.recordSuccess] ∧
    (append_note_to_page none 0 1 1
        { day := 1, month := 1, year := 2024, hour := 0, minute := 0, second := 0 }
        "pid" "note" (.response 500 ⟨none, none, none⟩)
        (.parsed none none)).1.actions = [] := by
  have h429 := response_feeds_manager none 0 1 1 429 ⟨some 7, some 0, some 3⟩
    (.pages []) (.parsed none none)
    { day := 1, month := 1, year := 2024, hour := 0, minute := 0, second := 0 }
    "pid" "note" rfl
  have h200 := response_feeds_manager none 0 1 1 200 ⟨none, none, none⟩
    (.pages []) (.parsed none none)
    { day := 1, month := 1, year := 2024, hour := 0, minute := 0, second := 0 }
    "pid" "note" rfl
  have h500 := response_feeds_manager none 0 1 1 500 ⟨none, none, none⟩
    (.pages []) (.parsed none none)
    { day := 1, month := 1, year := 2024, hour := 0, minute := 0, second := 0 }
    "pid" "note" rfl
  exact ⟨h429.1, h200.2.1, h500.2.2⟩

/-- C3: a call with empty or whitespace-only note text (`append_note`) or with
an empty or whitespace-only page id (`get_page_info`) returns a
`ValidationError`, attempts no network call, performs no rate-limit mutation,
and leaves the cache slot untouched: the rejection happens before any network
or rate-limit interaction. -/
theorem validation_rejects_before_network (note_text page_id : String) (cfg : Config)
    (cache : PagesCache) (ost : Option RateLimitState) (now : Nat) (j1 j2 : ℚ)
    (c : Clock) (net : HttpOutcome) (ebody : ErrorBody) (sbody : SearchBody)
    (hnote : trim_is_empty note_text = true) (hpid : trim_is_empty page_id = true) :
    append_note note_text cfg ost now j1 j2 c net ebody =
      ({ result := .error (.validationError "Cannot send an empty note")
         actions := [], network_attempted := false }, none) ∧
    get_page_info page_id cfg cache ost now j1 j2 net sbody =
      ({ result := .error (.validationError "Page ID cannot be empty")
         actions := [], network_attempted := false }, cache) ∧
    apply_actions now ost
      (append_note note_text cfg ost now j1 j2 c net ebody).1.actions = ost ∧
    apply_actions now ost
      (get_page_info page_id cfg cache ost now j1 j2 net sbody).1.actions = ost := by
  have h1 : append_note note_text cfg ost now j1 j2 c net ebody =
      ({ result := .error (.validationError "Cannot send an empty note")
         actions := [], network_attempted := false }, none) := by
    unfold append_note
    rw [if_pos hnote]
  have h2 : get_page_info page_id cfg cache ost now j1 j2 net sbody =
      ({ result := .error (.validationError "Page ID cannot be empty")
         actions := [], network_attempted := false }, cache) := by
    unfold get_page_info
    rw [if_pos hpid]
  refine ⟨h1, h2, ?_, ?_⟩
  · rw [h1]; rfl
  · rw [h2]; rfl

/-- C3 witness: the theorem at the whitespace-only note " " and the empty page id. -/
theorem validation_rejects_before_network_witness :
    append_note " " ⟨"tok", "pid", "title"⟩ none 0 1 1
        { day := 1, month := 1, year := 2024, hour := 0, minute := 0, second := 0 }
        (.transportError "") (.parsed none none) =
      ({ result := .error (.validationError "Cannot send an empty note")
         actions := [], network_attempted := false }, none) ∧
    get_page_info "" ⟨"tok", "pid", "title"⟩ none none 0 1 1
        (.transportError "") (.pages []) =
      ({ result := .error (.validationError "Page ID cannot be empty")
         actions := [], network_attempted := false }, none) := by
  have h := validation_rejects_before_network " " "" ⟨"tok", "pid", "title"⟩ none none 0 1 1
    { day := 1, month := 1, year := 2024, hour := 0, minute := 0, second := 0 }
    (.transportError "") (.parsed none none) (.pages []) (by decide) (by decide)
  exact ⟨h.1, h.2.1⟩

/-- C6: a first listing call that misses the cache, passes admission and
succeeds stores its page list with a 5-minute expiry; a second listing call
before that expiry returns the identical list from the cache with no network
attempt, no admission interaction, and no rate-limit mutation, whatever its
manager state, jitter draws, network or body would have been. -/
theorem cache_roundtrip (ost : Option RateLimitState) (now1 : Nat) (j1 j2 : ℚ)
    (status : Nat) (h : RateHeaders) (ps : List NotionPage) (now2 : Nat)
    (ost2 : Option RateLimitState) (j3 j4 : ℚ) (net2 : HttpOutcome) (body2 : SearchBody)
    (hadm : check_rate_limit ost now1 j1 j2 = .ok ())
    (h429 : status ≠ 429) (hs : is_success status = true)
    (httl : now2 < now1 + 300000) :
    (search_pages none ost now1 j1 j2 (.response status h) (.pages ps)).1.result
        = .ok ps ∧
    (search_pages none ost now1 j1 j2 (.response status h) (.pages ps)).2
        = some (ps, now1 + 300000) ∧
    search_pages (search_pages none ost now1 j1 j2 (.response status h) (.pages ps)).2
        ost2 now2 j3 j4 net2 body2 =
      ({ result := .ok ps, actions := [], network_attempted := false },
       some (ps, now1 + 300000)) := by
  have hfetch : search_pages none ost now1 j1 j2 (.response status h) (.pages ps) =
      ({ result := .ok ps, actions := [.recordSuccess], network_attempted := true },
       some (ps, now1 + 300000)) := by
    unfold search_pages search_pages_fetch
    rw [hadm]
    dsimp only
    rw [if_neg h429, hs]
    simp
  refine ⟨by rw [hfetch], by rw [hfetch], ?_⟩
  rw [hfetch]
  unfold search_pages
  dsimp only
  rw [if_pos httl]

/-- C6 witness: the theorem at a concrete successful first call and a second
call one millisecond later. -/
theorem cache_roundtrip_witness :
    (search_pages none none 0 1 1 (.response 200 ⟨none, none, none⟩)
        (.pages [⟨"id1", "T", none, "u"⟩])).1.result = .ok [⟨"id1", "T", none, "u"⟩] ∧
    (search_pages none none 0 1 1 (.response 200 ⟨none, none, none⟩)
        (.pages [⟨"id1", "T", none, "u"⟩])).2 = some ([⟨"id1", "T", none, "u"⟩], 300000) ∧
    search_pages (search_pages none none 0 1 1 (.response 200 ⟨none, none, none⟩)
        (.pages [⟨"id1", "T", none, "u"⟩])).2 none 1 1 1 (.transportError "down")
        (.pages []) =
      ({ result := .ok [⟨"id1", "T", none, "u"⟩], actions := [], network_attempted := false },
       some ([⟨"id1", "T", none, "u"⟩], 300000)) := by
  have h := cache_roundtrip none 0 1 1 200 ⟨none, none, none⟩ [⟨"id1", "T", none, "u"⟩]
    1 none 1 1 (.transportError "down") (.pages []) rfl (by decide) (by decide) (by decide)
  exact ⟨h.1, h.2.1, h.2.2⟩

/-- C7: a transport failure (the send itself fails, no HTTP response received)
makes each operation return a `NetworkError` and performs no rate-limit
mutation at all: the credential's state slot is left completely unchanged, and
the cache slot of the listing call is not updated either. -/
theorem transport_failure_preserves_state (ost : Option RateLimitState) (now : Nat)
    (j1 j2 : ℚ) (msg : String) (sbody : SearchBody) (ebody : ErrorBody) (c : Clock)
    (pid text : String)
    (hadm : check_rate_limit ost now j1 j2 = .ok ()) :
    verify_token ost now j1 j2 (.transportError msg) =
      { result := .error (.networkError ("API request failed: " ++ msg) false)
        actions := [], network_attempted := true } ∧
    search_pages none ost now j1 j2 (.transportError msg) sbody =
      ({ result := .error (.networkError ("API request failed: " ++ msg) false)
         actions := [], network_attempted := true }, none) ∧
    append_note_to_page ost now j1 j2 c pid text (.transportError msg) ebody =
      ({ result := .error (.networkError ("API request failed: " ++ msg) false)
         actions := [], network_attempted := true }, some (build_append_body c text)) ∧
    apply_actions now ost
      (verify_token ost now j1 j2 (.transportError msg)).actions = ost ∧
    apply_actions now ost
      (search_pages none ost now j1 j2 (.transportError msg) sbody).1.actions = ost ∧
    apply_actions now ost
      (append_note_to_page ost now j1 j2 c pid text
        (.transportError msg) ebody).1.actions = ost := by
  have h1 : verify_token ost now j1 j2 (.transportError msg) =
      { result := .error (.networkError ("API request failed: " ++ msg) false)
        actions := [], network_attempted := true } := by
    unfold verify_token
    rw [hadm]
  have h2 : search_pages none ost now j1 j2 (.transportError msg) sbody =
      ({ result := .error (.networkError ("API request failed: " ++ msg) false)
         actions := [], network_attempted := true }, none) := by
    unfold search_pages search_pages_fetch
    rw [hadm]
  have h3 : append_note_to_page ost now j1 j2 c pid text (.transportError msg) ebody =
      ({ result := .error (.networkError ("API request failed: " ++ msg) false)
         actions := [], network_attempted := true }, some (build_append_body c text)) := by
    unfold append_note_to_page
    rw [hadm]
  exact ⟨h1, h2, h3, by rw [h1]; rfl, by rw [h2]; rfl, by rw [h3]; rfl⟩

/-- C7 witness: the theorem at a concrete timeout on a previously-seen
credential state, which survives unchanged. -/
theorem transport_failure_preserves_state_witness :
    verify_token (some ⟨some 2, none, some 3, 0, [], 0, false⟩) 5 1 1
        (.transportError "timed out") =
      { result := .error (.networkError "API request failed: timed out" false)
        actions := [], network_attempted := true } ∧
    apply_actions 5 (some ⟨some 2, none, some 3, 0, [], 0, false⟩)
      (verify_token (some ⟨some 2, none, some 3, 0, [], 0, false⟩) 5 1 1
        (.transportError "timed out")).actions = some ⟨some 2, none, some 3, 0, [], 0, false⟩ := by
  have h := transport_failure_preserves_state (some ⟨some 2, none, some 3, 0, [], 0, false⟩)
    5 1 1 "timed out" (.pages []) (.parsed none none)
    { day := 1, month := 1, year := 2024, hour := 0, minute := 0, second := 0 }
    "pid" "note" rfl
  exact ⟨h.1, h.2.2.2.1⟩

/-- C8: when `get_page_info` gets past validation and the admission check, and
the underlying page listing either fails with any error or yields a list with
no page whose id equals `page_id`, it returns success with the fallback page
`{id := page_id, title := "Notion Page", icon := none, url := ""}` instead of
propagating the listing error. -/
theorem get_page_info_fallback (page_id : String) (cfg : Config) (cache : PagesCache)
    (ost : Option RateLimitState) (now : Nat) (j1 j2 : ℚ) (net : HttpOutcome)
    (sbody : SearchBody)
    (hpid : trim_is_empty page_id = false)
    (htok : ¬cfg.notion_api_token = "")
    (hadm : check_rate_limit ost now j1 j2 = .ok ())
    (hmiss : ∀ ps, (search_pages cache ost now j1 j2 net sbody).1.result = .ok ps →
      ps.find? (fun p => p.id == page_id) = none) :
    (get_page_info page_id cfg cache ost now j1 j2 net sbody).1.result =
      .ok (fallback_page page_id) := by
  unfold get_page_info
  rw [if_neg (by simp [hpid]), if_neg htok, hadm]
  dsimp only
  cases hres : (search_pages cache ost now j1 j2 net sbody).1.result with
  | error e => rfl
  | ok ps =>
    dsimp only
    rw [hmiss ps hres]

/-- C8 witness: the theorem at a concrete listing that succeeds with an empty
page list, so the requested id is absent and the fallback page is returned. -/
theorem get_page_info_fallback_witness :
    (get_page_info "abc" ⟨"tok", "", ""⟩ none none 0 1 1
        (.response 200 ⟨none, none, none⟩) (.pages [])).1.result =
      .ok (fallback_page "abc") := by
  have h := get_page_info_fallback "abc" ⟨"tok", "", ""⟩ none none 0 1 1
    (.response 200 ⟨none, none, none⟩) (.pages []) (by decide) (by decide) rfl
    (fun ps hp => by cases hp; rfl)
  exact h

/-- C9 counterexample: the whitespace-only token " " is a non-empty string, yet
`set_notion_api_token " "` leaves a populated cache slot untouched (the
trim-based validation rejects it before `invalidate_cache` runs), refuting the
claim for every non-empty token. -/
theorem set_token_cache_counterexample :
    " " ≠ "" ∧
    (set_notion_api_token " " (some ([], 5)) true (.ok true) true).2 = some ([], 5) := by
  constructor
  · decide
  · rfl

/-- C9 (amended): for every token whose trimmed form is non-empty,
`set_notion_api_token` clears the single-slot page cache before verification,
so after the call — whether client creation or verification succeeds or fails
in any way — the cache slot is empty and a subsequent listing call goes to the
fetch path (misses the cache); for a blank (empty or whitespace-only) token the
call returns a `ValidationError` and the cache is left untouched. -/
theorem set_token_clears_cache (api_token : String) (cache : PagesCache)
    (client_ok : Bool) (verify : Except AppError Bool) (save_ok : Bool) :
    (trim_is_empty api_token = false →
      (set_notion_api_token api_token cache client_ok verify save_ok).2 = none ∧
      (∀ ost2 now2 j3 j4 net2 body2,
        search_pages (set_notion_api_token api_token cache client_ok verify save_ok).2
          ost2 now2 j3 j4 net2 body2 =
        search_pages_fetch (set_notion_api_token api_token cache client_ok verify save_ok).2
          ost2 now2 j3 j4 net2 body2)) ∧
    (trim_is_empty api_token = true →
      set_notion_api_token api_token cache client_ok verify save_ok =
        (.error (.validationError "API token cannot be empty"), cache)) := by
  constructor
  · intro hne
    have hcleared : (set_notion_api_token api_token cache client_ok verify save_ok).2
        = none := by
      unfold set_notion_api_token
      rw [if_neg (by simp [hne])]
      cases hco : client_ok with
      | false => rfl
      | true =>
        dsimp only
        cases verify with
        | error e => rfl
        | ok valid =>
          cases valid with
          | false => rfl
          | true => cases save_ok <;> rfl
    refine ⟨hcleared, ?_⟩
    intro ost2 now2 j3 j4 net2 body2
    rw [hcleared]
    rfl
  · intro heq
    unfold set_notion_api_token
    rw [if_pos heq]

/-- C9 witness: a trimmed-non-empty token clears a populated cache even when
verification fails, and a blank token is rejected with the cache untouched. -/
theorem set_token_clears_cache_witness :
    (set_notion_api_token "secret" (some ([], 5)) true
        (.error (.networkError "API request failed: down" false)) true).2 = none ∧
    search_pages (set_notion_api_token "secret" (some ([], 5)) true
        (.error (.networkError "API request failed: down" false)) true).2
        none 0 1 1 (.transportError "down") (.pages []) =
      search_pages_fetch (set_notion_api_token "secret" (some ([], 5)) true
        (.error (.networkError "API request failed: down" false)) true).2
        none 0 1 1 (.transportError "down") (.pages []) ∧
    set_notion_api_token "" (some ([], 5)) true (.ok true) true =
      (.error (.validationError "API token cannot be empty"), some ([], 5)) := by
  have h1 := (set_token_clears_cache "secret" (some ([], 5)) true
    (.error (.networkError "API request failed: down" false)) true).1 (by decide)
  have h2 := (set_token_clears_cache "" (some ([], 5)) true (.ok true) true).2 (by decide)
  exact ⟨h1.1, h1.2 none 0 1 1 (.transportError "down") (.pages []), h2⟩
